import Mathlib

/-!
Shallow embedding of the EdgeMesh coordinator core: the domain model,
the scheduler (eligibility and scoring), the repository operations on
nodes and jobs, the metrics history buffer and the event bus, together
with theorems checking the specification against this embedding.

Python floats are embedded as rationals, datetimes as integers
(timestamps), and fallible operations return the untouched store
alongside an Except value (mirroring transaction rollback).
-/

/-- Task kinds, from models (spec section 3). -/
inductive TaskType where
  | INFERENCE
  | EMBEDDINGS
  | INDEX
  | TOKENIZE
  | PREPROCESS
deriving DecidableEq, Repr

/-- Job lifecycle states, from models (spec section 3). -/
inductive JobStatus where
  | QUEUED
  | RUNNING
  | COMPLETED
  | FAILED
  | CANCELLED
deriving DecidableEq, Repr

/-- Node liveness states, from models (spec section 3). -/
inductive NodeStatus where
  | UNKNOWN
  | ONLINE
  | OFFLINE
deriving DecidableEq, Repr

/-- Operator role preference, from models (spec section 3). -/
inductive RolePreference where
  | AUTO
  | PREFER_INFERENCE
  | PREFER_EMBEDDINGS
  | PREFER_PREPROCESS
deriving DecidableEq, Repr

/-- Modelled from the spec: the pydantic node model file is not under
src/, so the NodeCapabilities fields follow spec section 3. -/
structure NodeCapabilities where
  cpu_cores : Option Nat
  cpu_threads : Option Nat
  ram_total_gb : Option Rat
  gpu_name : Option String
  vram_total_gb : Option Rat
  os : Option String
  arch : Option String
  task_types : List TaskType
  labels : List String
  has_gpu : Bool
deriving DecidableEq, Repr

/-- Modelled from the spec: NodeMetrics fields follow spec section 3;
percents are rationals, the heartbeat timestamp an integer. -/
structure NodeMetrics where
  cpu_percent : Rat
  ram_used_gb : Rat
  ram_percent : Rat
  gpu_percent : Option Rat
  vram_used_gb : Option Rat
  running_jobs : Nat
  heartbeat_ts : Int
deriving DecidableEq, Repr

/-- Modelled from the spec: NodePolicy fields follow spec section 3. -/
structure NodePolicy where
  enabled : Bool
  cpu_cap_percent : Rat
  gpu_cap_percent : Option Rat
  ram_cap_percent : Rat
  task_allowlist : List TaskType
  role_preference : RolePreference
deriving DecidableEq, Repr

/-- Modelled from the spec: node identity fields, spec section 3. -/
structure NodeIdentity where
  node_id : String
  display_name : String
  ip : String
  port : Nat
deriving DecidableEq, Repr

/-- Modelled from the spec: the domain Node composite, spec section 3. -/
structure Node where
  identity : NodeIdentity
  capabilities : NodeCapabilities
  metrics : NodeMetrics
  policy : NodePolicy
  status : NodeStatus
  last_seen : Int
  created_at : Int
  updated_at : Int
deriving DecidableEq, Repr

/-- Scoring weight cpu_headroom, from _SCORE_WEIGHTS in scheduler/core.py. -/
def W_cpu_headroom : Rat := 45
/-- Scoring weight ram_headroom, from _SCORE_WEIGHTS in scheduler/core.py. -/
def W_ram_headroom : Rat := 35
/-- Scoring weight gpu_headroom, from _SCORE_WEIGHTS in scheduler/core.py. -/
def W_gpu_headroom : Rat := 20
/-- Scoring weight infer_gpu_bonus, from _SCORE_WEIGHTS in scheduler/core.py. -/
def W_infer_gpu_bonus : Rat := 22
/-- Scoring weight cpu_task_cpu_node_bonus, from _SCORE_WEIGHTS in scheduler/core.py. -/
def W_cpu_task_cpu_node_bonus : Rat := 12
/-- Scoring weight role_match_bonus, from _SCORE_WEIGHTS in scheduler/core.py. -/
def W_role_match_bonus : Rat := 14
/-- Scoring weight role_mismatch_penalty, from _SCORE_WEIGHTS in scheduler/core.py. -/
def W_role_mismatch_penalty : Rat := 10
/-- Scoring weight running_jobs_penalty, from _SCORE_WEIGHTS in scheduler/core.py. -/
def W_running_jobs_penalty : Rat := 2

/-- Embeds _task_requires_gpu from scheduler/core.py. -/
def task_requires_gpu (task_type : TaskType) : Bool :=
  task_type == TaskType.INFERENCE

/-- Embeds _task_prefers_cpu from scheduler/core.py. -/
def task_prefers_cpu (task_type : TaskType) : Bool :=
  task_type ∈ [TaskType.EMBEDDINGS, TaskType.INDEX, TaskType.TOKENIZE,
    TaskType.PREPROCESS]

/-- Embeds _infer_role_match from scheduler/core.py. -/
def infer_role_match (role : RolePreference) : Bool :=
  role ∈ [RolePreference.AUTO, RolePreference.PREFER_INFERENCE]

/-- Embeds _cpu_role_match from scheduler/core.py. -/
def cpu_role_match (role : RolePreference) : Bool :=
  role ∈ [RolePreference.AUTO, RolePreference.PREFER_EMBEDDINGS,
    RolePreference.PREFER_PREPROCESS]

/-- Embeds evaluate_node_eligibility from scheduler/core.py: reasons are
collected in source order and eligible is the emptiness of the list. -/
def evaluate_node_eligibility (node : Node) (task_type : TaskType) :
    Bool × List String :=
  let reasons : List String := []
  let reasons := if !node.policy.enabled then reasons ++ ["policy_disabled"]
    else reasons
  let reasons := if node.status ≠ NodeStatus.ONLINE then
    reasons ++ ["node_not_online"] else reasons
  let reasons := if task_type ∉ node.policy.task_allowlist then
    reasons ++ ["task_not_allowed"] else reasons
  let reasons := if node.metrics.cpu_percent > node.policy.cpu_cap_percent then
    reasons ++ ["cpu_over_cap"] else reasons
  let reasons := if node.metrics.ram_percent > node.policy.ram_cap_percent then
    reasons ++ ["ram_over_cap"] else reasons
  let reasons :=
    if task_requires_gpu task_type then
      if !node.capabilities.has_gpu then reasons ++ ["gpu_required"]
      else
        match node.metrics.gpu_percent with
        | some gpu =>
          let gpu_cap := node.policy.gpu_cap_percent.getD 100
          if gpu > gpu_cap then reasons ++ ["gpu_over_cap"] else reasons
        | none => reasons
    else reasons
  (reasons.length == 0, reasons)

/-- Embeds _headroom from scheduler/core.py. -/
def headroom (percent : Rat) (cap_percent : Rat) : Rat :=
  let cap := max cap_percent 1
  let utilization := min (percent / cap) 2
  max 0 (1 - utilization)

/-- Rounds a rational to 3 decimal places, embedding the round(score, 3)
call of scheduler/core.py; both the source embedding and the spec-side
formula use this same function. -/
def round3 (q : Rat) : Rat := (round (q * 1000) : Int) / 1000

/-- Embeds score_node from scheduler/core.py, accumulating the weighted
terms in source order. -/
def score_node (node : Node) (task_type : TaskType) : Rat :=
  let score : Rat := 0
  let score := score +
    headroom node.metrics.cpu_percent node.policy.cpu_cap_percent *
      W_cpu_headroom
  let score := score +
    headroom node.metrics.ram_percent node.policy.ram_cap_percent *
      W_ram_headroom
  let score :=
    if task_requires_gpu task_type then
      let score := if node.capabilities.has_gpu then
        score + W_infer_gpu_bonus else score
      let score :=
        match node.metrics.gpu_percent with
        | some gpu =>
          let gpu_cap := node.policy.gpu_cap_percent.getD 100
          score + headroom gpu gpu_cap * W_gpu_headroom
        | none => score
      if infer_role_match node.policy.role_preference then
        score + W_role_match_bonus
      else score - W_role_mismatch_penalty
    else score
  let score :=
    if task_prefers_cpu task_type then
      let score := if !node.capabilities.has_gpu then
        score + W_cpu_task_cpu_node_bonus else score
      if cpu_role_match node.policy.role_preference then
        score + W_role_match_bonus
      else score - W_role_mismatch_penalty
    else score
  let score := score - node.metrics.running_jobs * W_running_jobs_penalty
  round3 score

/-- Follows the words of spec section 4.F for the headroom helper:
headroom(percent, cap) = max(0, 1 - min(percent / max(cap,1), 2)). -/
def spec_headroom (percent : Rat) (cap : Rat) : Rat :=
  max 0 (1 - min (percent / max cap 1) 2)

/-- Follows the words of claim C2 and spec section 4.F for the score:
the weighted sum written as one expression, rounded to 3 decimals. -/
def spec_score_node (node : Node) (task_type : TaskType) : Rat :=
  let infer_terms : Rat :=
    if task_type = TaskType.INFERENCE then
      (if node.capabilities.has_gpu then W_infer_gpu_bonus else 0) +
      (match node.metrics.gpu_percent with
       | some gpu =>
         spec_headroom gpu (node.policy.gpu_cap_percent.getD 100) *
           W_gpu_headroom
       | none => 0) +
      (if node.policy.role_preference ∈
          [RolePreference.AUTO, RolePreference.PREFER_INFERENCE] then
        W_role_match_bonus else -W_role_mismatch_penalty)
    else 0
  let cpu_terms : Rat :=
    if task_type ∈ [TaskType.EMBEDDINGS, TaskType.INDEX, TaskType.TOKENIZE,
        TaskType.PREPROCESS] then
      (if node.capabilities.has_gpu then 0 else W_cpu_task_cpu_node_bonus) +
      (if node.policy.role_preference ∈
          [RolePreference.AUTO, RolePreference.PREFER_EMBEDDINGS,
            RolePreference.PREFER_PREPROCESS] then
        W_role_match_bonus else -W_role_mismatch_penalty)
    else 0
  round3 (spec_headroom node.metrics.cpu_percent node.policy.cpu_cap_percent *
      W_cpu_headroom +
    spec_headroom node.metrics.ram_percent node.policy.ram_cap_percent *
      W_ram_headroom +
    infer_terms + cpu_terms -
    node.metrics.running_jobs * W_running_jobs_penalty)

/-- Helper for stating the closed form of the GPU-related reasons of
evaluate_node_eligibility: the sublist contributed by the GPU checks. -/
def gpu_reason_chunk (task_type : TaskType) (has_gpu : Bool)
    (gpu_percent : Option Rat) (gpu_cap_percent : Option Rat) : List String :=
  if task_requires_gpu task_type then
    if !has_gpu then ["gpu_required"]
    else
      match gpu_percent with
      | some gpu =>
        if gpu > gpu_cap_percent.getD 100 then ["gpu_over_cap"] else []
      | none => []
  else []

set_option maxHeartbeats 1000000 in
/-- Closed form of the reasons list of evaluate_node_eligibility: one
conditional singleton per failure reason, in source order. -/
theorem evaluate_node_eligibility_reasons_eq (node : Node)
    (task_type : TaskType) :
    (evaluate_node_eligibility node task_type).2 =
      (if !node.policy.enabled then ["policy_disabled"] else []) ++
      (if node.status ≠ NodeStatus.ONLINE then ["node_not_online"] else []) ++
      (if task_type ∉ node.policy.task_allowlist then ["task_not_allowed"]
        else []) ++
      (if node.metrics.cpu_percent > node.policy.cpu_cap_percent then
        ["cpu_over_cap"] else []) ++
      (if node.metrics.ram_percent > node.policy.ram_cap_percent then
        ["ram_over_cap"] else []) ++
      gpu_reason_chunk task_type node.capabilities.has_gpu
        node.metrics.gpu_percent node.policy.gpu_cap_percent := by
  unfold evaluate_node_eligibility gpu_reason_chunk
  cases hg : node.metrics.gpu_percent <;> split_ifs <;> simp_all <;>
    split_ifs <;> rfl

/-- Membership in a conditional singleton list. -/
theorem mem_ite_singleton {c : Prop} [Decidable c] (a b : String) :
    (a ∈ (if c then [b] else []) : Prop) ↔ c ∧ a = b := by
  split <;> simp_all

/-- The string gpu_required appears in the GPU chunk exactly for an
INFERENCE task on a node without a GPU. -/
theorem gpu_chunk_mem_required (task_type : TaskType) (has_gpu : Bool)
    (gp : Option Rat) (cap : Option Rat) :
    ("gpu_required" ∈ gpu_reason_chunk task_type has_gpu gp cap) ↔
      (task_type = TaskType.INFERENCE ∧ has_gpu = false) := by
  cases task_type <;> cases has_gpu <;> cases gp <;>
    simp [gpu_reason_chunk, task_requires_gpu]

/-- The string gpu_over_cap appears in the GPU chunk exactly for an
INFERENCE task on a GPU node whose known gpu_percent exceeds the cap. -/
theorem gpu_chunk_mem_over (task_type : TaskType) (has_gpu : Bool)
    (gp : Option Rat) (cap : Option Rat) :
    ("gpu_over_cap" ∈ gpu_reason_chunk task_type has_gpu gp cap) ↔
      (task_type = TaskType.INFERENCE ∧ has_gpu = true ∧
        ∃ gpu, gp = some gpu ∧ gpu > cap.getD 100) := by
  cases task_type <;> cases has_gpu <;> cases gp <;>
    simp [gpu_reason_chunk, task_requires_gpu]

/-- Strings other than gpu_required and gpu_over_cap never appear in the
GPU chunk. -/
theorem gpu_chunk_mem_other (task_type : TaskType) (has_gpu : Bool)
    (gp : Option Rat) (cap : Option Rat) (r : String)
    (h1 : r ≠ "gpu_required") (h2 : r ≠ "gpu_over_cap") :
    r ∉ gpu_reason_chunk task_type has_gpu gp cap := by
  cases task_type <;> cases has_gpu <;> cases gp <;>
    simp_all [gpu_reason_chunk, task_requires_gpu]

/-- The GPU chunk is a sublist of the two GPU reason strings. -/
theorem gpu_chunk_sublist (task_type : TaskType) (has_gpu : Bool)
    (gp : Option Rat) (cap : Option Rat) :
    List.Sublist (gpu_reason_chunk task_type has_gpu gp cap)
      ["gpu_required", "gpu_over_cap"] := by
  cases task_type <;> cases has_gpu <;> cases gp <;>
    simp [gpu_reason_chunk, task_requires_gpu] <;> (split_ifs <;> simp_all)

/-- Conditional singletons are sublists of their singleton. -/
theorem ite_singleton_sublist {c : Prop} [Decidable c] (b : String) :
    List.Sublist (if c then [b] else []) [b] := by
  split <;> simp

/-- The reasons list is, in order, a sublist of the canonical enumeration
of the seven failure reasons. -/
theorem evaluate_node_eligibility_reasons_sublist (node : Node)
    (task_type : TaskType) :
    List.Sublist (evaluate_node_eligibility node task_type).2
      ["policy_disabled", "node_not_online", "task_not_allowed",
        "cpu_over_cap", "ram_over_cap", "gpu_required", "gpu_over_cap"] := by
  rw [evaluate_node_eligibility_reasons_eq]
  have h := List.Sublist.append (List.Sublist.append (List.Sublist.append
    (List.Sublist.append (List.Sublist.append
      (ite_singleton_sublist (c := !node.policy.enabled) "policy_disabled")
      (ite_singleton_sublist (c := node.status ≠ NodeStatus.ONLINE)
        "node_not_online"))
      (ite_singleton_sublist (c := task_type ∉ node.policy.task_allowlist)
        "task_not_allowed"))
      (ite_singleton_sublist
        (c := node.metrics.cpu_percent > node.policy.cpu_cap_percent)
        "cpu_over_cap"))
      (ite_singleton_sublist
        (c := node.metrics.ram_percent > node.policy.ram_cap_percent)
        "ram_over_cap"))
      (gpu_chunk_sublist task_type node.capabilities.has_gpu
        node.metrics.gpu_percent node.policy.gpu_cap_percent)
  simpa using h

/-- The eligible flag is the emptiness test of the reasons list, by
construction of the returned pair. -/
theorem evaluate_node_eligibility_fst (node : Node) (task_type : TaskType) :
    (evaluate_node_eligibility node task_type).1 =
      ((evaluate_node_eligibility node task_type).2.length == 0) := rfl

/-- C1: evaluate_node_eligibility returns eligible = true exactly when the
reasons list is empty, and the reasons list contains exactly the applicable
failure reasons: policy_disabled iff the policy is disabled, node_not_online
iff status is not ONLINE, task_not_allowed iff the task is outside the
allowlist, cpu_over_cap and ram_over_cap iff the respective metric exceeds
its cap, and, only for INFERENCE, gpu_required iff the node lacks a GPU,
else gpu_over_cap iff gpu_percent is known and exceeds the gpu cap
(100 when unset); no other string and no duplicate occurs. -/
theorem C1_evaluate_node_eligibility (node : Node) (task_type : TaskType) :
    ((evaluate_node_eligibility node task_type).1 = true ↔
      (evaluate_node_eligibility node task_type).2 = []) ∧
    ("policy_disabled" ∈ (evaluate_node_eligibility node task_type).2 ↔
      node.policy.enabled = false) ∧
    ("node_not_online" ∈ (evaluate_node_eligibility node task_type).2 ↔
      node.status ≠ NodeStatus.ONLINE) ∧
    ("task_not_allowed" ∈ (evaluate_node_eligibility node task_type).2 ↔
      task_type ∉ node.policy.task_allowlist) ∧
    ("cpu_over_cap" ∈ (evaluate_node_eligibility node task_type).2 ↔
      node.metrics.cpu_percent > node.policy.cpu_cap_percent) ∧
    ("ram_over_cap" ∈ (evaluate_node_eligibility node task_type).2 ↔
      node.metrics.ram_percent > node.policy.ram_cap_percent) ∧
    ("gpu_required" ∈ (evaluate_node_eligibility node task_type).2 ↔
      (task_type = TaskType.INFERENCE ∧ node.capabilities.has_gpu = false)) ∧
    ("gpu_over_cap" ∈ (evaluate_node_eligibility node task_type).2 ↔
      (task_type = TaskType.INFERENCE ∧ node.capabilities.has_gpu = true ∧
        ∃ gpu, node.metrics.gpu_percent = some gpu ∧
          gpu > node.policy.gpu_cap_percent.getD 100)) ∧
    (∀ r ∈ (evaluate_node_eligibility node task_type).2,
      r ∈ ["policy_disabled", "node_not_online", "task_not_allowed",
        "cpu_over_cap", "ram_over_cap", "gpu_required", "gpu_over_cap"]) ∧
    (evaluate_node_eligibility node task_type).2.Nodup := by
  have hr := evaluate_node_eligibility_reasons_eq node task_type
  have hsub := evaluate_node_eligibility_reasons_sublist node task_type
  refine ⟨?_, ?_, ?_, ?_, ?_, ?_, ?_, ?_, ?_, ?_⟩
  · rw [evaluate_node_eligibility_fst]
    simp [List.length_eq_zero]
  · rw [hr]
    simp [List.mem_append, mem_ite_singleton, gpu_chunk_mem_other]
  · rw [hr]
    simp [List.mem_append, mem_ite_singleton, gpu_chunk_mem_other]
  · rw [hr]
    simp [List.mem_append, mem_ite_singleton, gpu_chunk_mem_other]
  · rw [hr]
    simp [List.mem_append, mem_ite_singleton, gpu_chunk_mem_other]
  · rw [hr]
    simp [List.mem_append, mem_ite_singleton, gpu_chunk_mem_other]
  · rw [hr]
    simp [List.mem_append, mem_ite_singleton, gpu_chunk_mem_required]
  · rw [hr]
    simp [List.mem_append, mem_ite_singleton, gpu_chunk_mem_over]
  · exact fun r hrm => hsub.subset hrm
  · exact List.Nodup.sublist hsub (by decide)

set_option maxHeartbeats 2000000 in
/-- C2: score_node equals, rounded to 3 decimals, the weighted sum of
spec section 4.F written as one formula: cpu and ram headroom terms always;
for INFERENCE the gpu bonus, gpu headroom and role match terms; for the
CPU-preferring tasks the cpu-node bonus and role match terms; minus 2 per
running job. -/
theorem C2_score_node (node : Node) (task_type : TaskType) :
    score_node node task_type = spec_score_node node task_type := by
  unfold score_node spec_score_node
  cases task_type <;>
    cases hgpu : node.capabilities.has_gpu <;>
    cases hg : node.metrics.gpu_percent <;>
    cases hrole : node.policy.role_preference <;>
    simp [task_requires_gpu, task_prefers_cpu, infer_role_match,
      cpu_role_match, headroom, spec_headroom, hg] <;>
    (first | rfl | (congr 1; ring))

/-- Embeds _ALLOWED_JOB_TRANSITIONS from db/repository.py. -/
def allowed_job_transitions : JobStatus → List JobStatus
  | JobStatus.QUEUED => [JobStatus.RUNNING]
  | JobStatus.RUNNING => [JobStatus.COMPLETED, JobStatus.FAILED]
  | JobStatus.COMPLETED => []
  | JobStatus.FAILED => []
  | JobStatus.CANCELLED => []

/-- Embeds the jobs table row JobRecord from db/orm.py; datetimes are
integers, nullable columns are options. -/
structure JobRecord where
  id : String
  type : TaskType
  status : JobStatus
  payload_ref : Option String
  assigned_node_id : Option String
  attempts : Nat
  created_at : Int
  updated_at : Int
  started_at : Option Int
  completed_at : Option Int
  error : Option String
deriving DecidableEq, Repr

/-- Python's `a or b` over optional strings: None and the empty string
are falsy, so they fall through to the right operand. -/
def py_or_str (a b : Option String) : Option String :=
  match a with
  | some s => if s = "" then b else some s
  | none => b

/-- Looks a job up by primary key, embedding session.get(JobRecord, id). -/
def find_job (jobs : List JobRecord) (job_id : String) : Option JobRecord :=
  jobs.find? (fun j => j.id == job_id)

/-- Writes the mutated row back by primary key. -/
def set_job (jobs : List JobRecord) (row2 : JobRecord) : List JobRecord :=
  jobs.map (fun j => if j.id == row2.id then row2 else j)

/-- Typed store failures, per spec sections 4.B and 7: KeyError surfaces
as NotFound, the invalid-transition ValueError as Conflict. -/
inductive RepoError where
  | notFound
  | conflict
deriving DecidableEq, Repr

/-- Embeds transition_job_status from db/repository.py. The store is
returned alongside the result; error cases return it untouched, mirroring
the rolled-back transaction. -/
def transition_job_status (jobs : List JobRecord) (job_id : String)
    (new_status : JobStatus) (error : Option String) (now : Int) :
    List JobRecord × Except RepoError JobRecord :=
  match find_job jobs job_id with
  | none => (jobs, Except.error RepoError.notFound)
  | some row =>
    if row.status = new_status then
      match error with
      | some e =>
        let row2 := { row with error := some e, updated_at := now }
        (set_job jobs row2, Except.ok row2)
      | none => (jobs, Except.ok row)
    else if new_status ∈ allowed_job_transitions row.status then
      let base := { row with status := new_status, updated_at := now }
      let row2 :=
        if new_status = JobStatus.RUNNING then
          { base with
            started_at := some (row.started_at.getD now),
            attempts := row.attempts + 1,
            error := none }
        else if new_status = JobStatus.COMPLETED then
          { base with completed_at := some now, error := none }
        else if new_status = JobStatus.FAILED then
          { base with
            completed_at := some now,
            error := py_or_str error (py_or_str row.error (some "Job failed")) }
        else base
      (set_job jobs row2, Except.ok row2)
    else (jobs, Except.error RepoError.conflict)

/-- Embeds the nodes table row NodeRecord from db/orm.py; the JSON blob
columns hold the decoded structures, datetimes are integers. -/
structure NodeRecord where
  node_id : String
  display_name : String
  ip : String
  port : Nat
  status : NodeStatus
  capabilities : NodeCapabilities
  metrics : NodeMetrics
  policy : NodePolicy
  last_seen : Int
  created_at : Int
  updated_at : Int
deriving DecidableEq, Repr

/-- Looks a node up by primary key, embedding session.get(NodeRecord, id). -/
def find_node (nodes : List NodeRecord) (node_id : String) :
    Option NodeRecord :=
  nodes.find? (fun n => n.node_id == node_id)

/-- Embeds _to_node from db/repository.py: repackages a row as the domain
Node (the JSON decode is the identity in this embedding). -/
def to_node (row : NodeRecord) : Node :=
  { identity :=
      { node_id := row.node_id, display_name := row.display_name,
        ip := row.ip, port := row.port },
    capabilities := row.capabilities,
    metrics := row.metrics,
    policy := row.policy,
    status := row.status,
    last_seen := row.last_seen,
    created_at := row.created_at,
    updated_at := row.updated_at }

/-- Modelled from the spec: NodeCapabilities() defaults (the pydantic
model file is not under src/); task_types defaults to the full TaskType
set, has_gpu to false, everything optional to unset (spec section 3). -/
def default_capabilities : NodeCapabilities :=
  { cpu_cores := none, cpu_threads := none, ram_total_gb := none,
    gpu_name := none, vram_total_gb := none, os := none, arch := none,
    task_types := [TaskType.INFERENCE, TaskType.EMBEDDINGS, TaskType.INDEX,
      TaskType.TOKENIZE, TaskType.PREPROCESS],
    labels := [], has_gpu := false }

/-- Modelled from the spec: NodeMetrics() defaults (the pydantic model
file is not under src/); usage figures default to zero, optional gauges
to unset, and the heartbeat timestamp to the creation instant. -/
def default_metrics (now : Int) : NodeMetrics :=
  { cpu_percent := 0, ram_used_gb := 0, ram_percent := 0,
    gpu_percent := none, vram_used_gb := none, running_jobs := 0,
    heartbeat_ts := now }

/-- Modelled from the spec: NodePolicy() defaults, spec section 3:
enabled, all caps 100, all task types allowed, AUTO. -/
def default_policy : NodePolicy :=
  { enabled := true, cpu_cap_percent := 100, gpu_cap_percent := some 100,
    ram_cap_percent := 100,
    task_allowlist := [TaskType.INFERENCE, TaskType.EMBEDDINGS,
      TaskType.INDEX, TaskType.TOKENIZE, TaskType.PREPROCESS],
    role_preference := RolePreference.AUTO }

/-- Embeds _ensure_node from db/repository.py: return the existing row or
insert one with defaults, status UNKNOWN, display_name the id, ip 0.0.0.0,
port 0 and all timestamps now. -/
def ensure_node (nodes : List NodeRecord) (node_id : String) (now : Int) :
    List NodeRecord :=
  if (find_node nodes node_id).isSome then nodes
  else
    nodes ++ [{
      node_id := node_id, display_name := node_id, ip := "0.0.0.0",
      port := 0, status := NodeStatus.UNKNOWN,
      capabilities := default_capabilities,
      metrics := default_metrics now,
      policy := default_policy,
      last_seen := now, created_at := now, updated_at := now }]

/-- Embeds update_node_metrics from db/repository.py: ensure the node,
replace its metrics, set status ONLINE, last_seen to the heartbeat
timestamp and refresh updated_at; the returned Node mirrors _to_node. -/
def update_node_metrics (nodes : List NodeRecord) (node_id : String)
    (metrics : NodeMetrics) (now : Int) : List NodeRecord × Option Node :=
  let nodes1 := ensure_node nodes node_id now
  let nodes2 := nodes1.map (fun n =>
    if n.node_id == node_id then
      { n with
          metrics := metrics, status := NodeStatus.ONLINE,
          last_seen := metrics.heartbeat_ts, updated_at := now }
    else n)
  (nodes2, (find_node nodes2 node_id).map to_node)

/-- Embeds update_node_policy from db/repository.py: ensure the node,
replace its policy and refresh updated_at. -/
def update_node_policy (nodes : List NodeRecord) (node_id : String)
    (policy : NodePolicy) (now : Int) : List NodeRecord × Option Node :=
  let nodes1 := ensure_node nodes node_id now
  let nodes2 := nodes1.map (fun n =>
    if n.node_id == node_id then
      { n with policy := policy, updated_at := now }
    else n)
  (nodes2, (find_node nodes2 node_id).map to_node)

/-- Embeds put_node_policy from api/routers/nodes.py: the handler
delegates to update_node_policy with no not-found branch of its own. -/
def put_node_policy (nodes : List NodeRecord) (node_id : String)
    (policy : NodePolicy) (now : Int) : List NodeRecord × Option Node :=
  update_node_policy nodes node_id policy now

/-- Embeds mark_offline_if_stale_nodes from db/repository.py: one pass
over the rows, demoting each stale non-OFFLINE node and collecting the
changed ones (as domain Nodes, mirroring _to_node). -/
def mark_offline_if_stale_nodes (nodes : List NodeRecord)
    (stale_seconds : Int) (now : Int) : List NodeRecord × List Node :=
  let cutoff := now - stale_seconds
  nodes.foldl (fun acc n =>
    if n.last_seen < cutoff ∧ n.status ≠ NodeStatus.OFFLINE then
      let n2 := { n with status := NodeStatus.OFFLINE, updated_at := now }
      (acc.1 ++ [n2], acc.2 ++ [to_node n2])
    else (acc.1 ++ [n], acc.2)) ([], [])

/-- Suffix of the last k items of a list (all of it when k exceeds the
length); the shape both ring buffers of api/state.py produce. -/
def last_n (k : Nat) (l : List α) : List α := l.drop (l.length - k)

/-- Python slicing items[-limit:] for an arbitrary integer limit: a
positive limit keeps the last limit items, zero keeps everything, and a
negative limit -n drops the first n items. -/
def py_slice_last (items : List α) (limit : Int) : List α :=
  if 0 < limit then items.drop (items.length - limit.toNat)
  else items.drop (-limit).toNat

/-- Embeds one deque append with maxlen from api/state.py: when the ring
is at capacity the oldest sample falls out. -/
def deque_append (maxlen : Nat) (l : List α) (a : α) : List α :=
  let l2 := l ++ [a]
  l2.drop (l2.length - maxlen)

/-- Embeds MetricsHistoryBuffer from api/state.py: per-node rings of at
most max_samples samples, missing ids reading as empty. -/
structure MetricsHistoryBuffer where
  max_samples : Nat
  samples : String → List NodeMetrics

/-- Embeds MetricsHistoryBuffer.__init__ (the empty defaultdict). -/
def MetricsHistoryBuffer.empty (max_samples : Nat) : MetricsHistoryBuffer :=
  { max_samples := max_samples, samples := fun _ => [] }

/-- Embeds MetricsHistoryBuffer.append from api/state.py. -/
def MetricsHistoryBuffer.append (buf : MetricsHistoryBuffer)
    (node_id : String) (metrics : NodeMetrics) : MetricsHistoryBuffer :=
  { buf with
      samples := fun i =>
        if i == node_id then deque_append buf.max_samples (buf.samples i) metrics
        else buf.samples i }

/-- Embeds MetricsHistoryBuffer.get from api/state.py: empty for an
unknown or empty ring, otherwise the Python slice items[-limit:]. -/
def MetricsHistoryBuffer.get (buf : MetricsHistoryBuffer)
    (node_id : String) (limit : Int) : List NodeMetrics :=
  let samples := buf.samples node_id
  if samples = [] then [] else py_slice_last samples limit

/-- Embeds the NodeUpdate event payload published on the bus (models,
spec section 4.D). -/
structure NodeUpdateEvent where
  node_id : String
  status : NodeStatus
  metrics : NodeMetrics
  updated_at : Int
deriving DecidableEq, Repr

/-- Embeds the per-queue step of NodeEventBus.publish from api/state.py:
a full queue (capacity reached, capacities being positive) first gives up
its oldest pending event, then the new event is enqueued. -/
def queue_publish (queue_size : Nat) (q : List NodeUpdateEvent)
    (e : NodeUpdateEvent) : List NodeUpdateEvent :=
  let q1 := if 0 < queue_size ∧ queue_size ≤ q.length then q.drop 1 else q
  q1 ++ [e]

/-- Embeds NodeEventBus.publish from api/state.py: every subscriber queue
of the snapshot receives the event through queue_publish. -/
def bus_publish (queue_size : Nat) (queues : List (List NodeUpdateEvent))
    (e : NodeUpdateEvent) : List (List NodeUpdateEvent) :=
  queues.map (fun q => queue_publish queue_size q e)

/-- Folds a sequence of publishes into one subscriber queue, starting from
the empty queue subscribe() hands out. -/
def publish_seq (queue_size : Nat) (events : List NodeUpdateEvent) :
    List NodeUpdateEvent :=
  events.foldl (queue_publish queue_size) []

/-- C3: transition_job_status fails with NotFound on a missing id, is a
tolerated no-op (possibly updating error) on a self-transition, succeeds
on the allowed successors (QUEUED to RUNNING; RUNNING to COMPLETED or
FAILED), fails with Conflict in every other case (the terminal states
COMPLETED, FAILED and CANCELLED allowing no successor), and on failure
leaves the store untouched. -/
theorem C3_transition_job_status (jobs : List JobRecord) (job_id : String)
    (new_status : JobStatus) (error : Option String) (now : Int) :
    (find_job jobs job_id = none →
      transition_job_status jobs job_id new_status error now =
        (jobs, Except.error RepoError.notFound)) ∧
    (∀ row, find_job jobs job_id = some row →
      (row.status = new_status →
        ∃ row2,
          (transition_job_status jobs job_id new_status error now).2 =
            Except.ok row2 ∧
          row2.status = row.status ∧ row2.attempts = row.attempts ∧
          row2.started_at = row.started_at ∧
          row2.completed_at = row.completed_at ∧
          row2.error = (match error with
            | some e => some e
            | none => row.error)) ∧
      (row.status ≠ new_status →
        new_status ∈ allowed_job_transitions row.status →
        ∃ row2,
          (transition_job_status jobs job_id new_status error now).2 =
            Except.ok row2 ∧ row2.status = new_status) ∧
      (row.status ≠ new_status →
        new_status ∉ allowed_job_transitions row.status →
        transition_job_status jobs job_id new_status error now =
          (jobs, Except.error RepoError.conflict))) ∧
    (∀ e, (transition_job_status jobs job_id new_status error now).2 =
        Except.error e →
      (transition_job_status jobs job_id new_status error now).1 = jobs) ∧
    allowed_job_transitions JobStatus.QUEUED = [JobStatus.RUNNING] ∧
    allowed_job_transitions JobStatus.RUNNING =
      [JobStatus.COMPLETED, JobStatus.FAILED] ∧
    allowed_job_transitions JobStatus.COMPLETED = [] ∧
    allowed_job_transitions JobStatus.FAILED = [] ∧
    allowed_job_transitions JobStatus.CANCELLED = [] := by
  refine ⟨?_, ?_, ?_, rfl, rfl, rfl, rfl, rfl⟩
  · intro h
    simp [transition_job_status, h]
  · intro row hrow
    refine ⟨?_, ?_, ?_⟩
    · intro hst
      simp only [transition_job_status, hrow]
      rw [if_pos hst]
      cases error with
      | some e => exact ⟨_, rfl, rfl, rfl, rfl, rfl, rfl⟩
      | none => exact ⟨row, rfl, rfl, rfl, rfl, rfl, rfl⟩
    · intro hst hmem
      simp only [transition_job_status, hrow]
      rw [if_neg hst, if_pos hmem]
      exact ⟨_, rfl, by split_ifs <;> rfl⟩
    · intro hst hnm
      simp only [transition_job_status, hrow]
      rw [if_neg hst, if_neg hnm]
  · intro e he
    rcases hfind : find_job jobs job_id with _ | row
    · simp [transition_job_status, hfind]
    · simp only [transition_job_status, hfind] at he ⊢
      split_ifs at he ⊢ <;> first | rfl | (cases error <;> simp_all)

/-- Sample QUEUED job used to exercise the transition FSM concretely. -/
def job_queued_sample : JobRecord :=
  { id := "job-1", type := TaskType.EMBEDDINGS, status := JobStatus.QUEUED,
    payload_ref := none, assigned_node_id := none, attempts := 0,
    created_at := 0, updated_at := 0, started_at := none,
    completed_at := none, error := none }

/-- First step of the C4 run: QUEUED to RUNNING. -/
def c4_step1 : List JobRecord × Except RepoError JobRecord :=
  transition_job_status [job_queued_sample] "job-1" JobStatus.RUNNING none 1

/-- Second step of the C4 run: the tolerated RUNNING self-transition,
supplying an error string. -/
def c4_step2 : List JobRecord × Except RepoError JobRecord :=
  transition_job_status c4_step1.1 "job-1" JobStatus.RUNNING
    (some "transient") 2

/-- Third step of the C4 run: RUNNING to FAILED with no error supplied. -/
def c4_step3 : List JobRecord × Except RepoError JobRecord :=
  transition_job_status c4_step2.1 "job-1" JobStatus.FAILED none 3

/-- C4 counterexample: a transition sequence that stays within the FSM
(every step succeeds) where the entry to FAILED supplies no error, yet the
job's error ends as the string set by the earlier tolerated self-transition
rather than the claimed default Job failed. -/
theorem C4_counterexample :
    c4_step1.2.isOk = true ∧ c4_step2.2.isOk = true ∧
    c4_step3.2 = Except.ok
      { id := "job-1", type := TaskType.EMBEDDINGS,
        status := JobStatus.FAILED, payload_ref := none,
        assigned_node_id := none, attempts := 1, created_at := 0,
        updated_at := 3, started_at := some 1, completed_at := some 3,
        error := some "transient" } ∧
    (some "transient" : Option String) ≠ some "Job failed" := by
  refine ⟨rfl, rfl, rfl, by decide⟩

/-- C4 as amended: along every successful transition, attempts grows by
exactly one on each entry to RUNNING and is otherwise unchanged (hence
monotonically non-decreasing), started_at is set on the first entry to
RUNNING and never overwritten, completed_at is set on entry to COMPLETED
or FAILED, error is cleared on entry to RUNNING, and on entry to FAILED
with no supplied error the job keeps its existing error, defaulting to
Job failed only when none is set. -/
theorem C4_transition_field_invariants :
    (∀ (jobs : List JobRecord) (job_id : String) (new_status : JobStatus)
      (error : Option String) (now : Int) (row row2 : JobRecord),
      find_job jobs job_id = some row →
      (transition_job_status jobs job_id new_status error now).2 =
        Except.ok row2 →
      row.status ≠ new_status →
      (new_status = JobStatus.RUNNING →
        row2.attempts = row.attempts + 1 ∧
        row2.started_at = some (row.started_at.getD now) ∧
        row2.error = none) ∧
      (new_status ≠ JobStatus.RUNNING →
        row2.attempts = row.attempts ∧
        row2.started_at = row.started_at) ∧
      ((new_status = JobStatus.COMPLETED ∨ new_status = JobStatus.FAILED) →
        row2.completed_at = some now) ∧
      (new_status = JobStatus.FAILED →
        row2.error = py_or_str error (py_or_str row.error (some "Job failed"))) ∧
      (new_status = JobStatus.FAILED → error = none → row.error = none →
        row2.error = some "Job failed")) ∧
    (∀ (jobs : List JobRecord) (job_id : String) (new_status : JobStatus)
      (error : Option String) (now : Int) (row row2 : JobRecord),
      find_job jobs job_id = some row →
      (transition_job_status jobs job_id new_status error now).2 =
        Except.ok row2 →
      row.attempts ≤ row2.attempts ∧
      (∀ t, row.started_at = some t → row2.started_at = some t)) := by
  constructor
  · intro jobs job_id new_status error now row row2 hrow hok hst
    simp only [transition_job_status, hrow] at hok
    rw [if_neg hst] at hok
    by_cases hmem : new_status ∈ allowed_job_transitions row.status
    · rw [if_pos hmem] at hok
      simp only [Except.ok.injEq] at hok
      subst hok
      cases new_status <;> simp_all [py_or_str]
    · rw [if_neg hmem] at hok
      exact absurd hok (by simp)
  · intro jobs job_id new_status error now row row2 hrow hok
    simp only [transition_job_status, hrow] at hok
    split_ifs at hok <;> (try cases error) <;>
      simp only [Except.ok.injEq, Except.error.injEq] at hok <;>
      (try subst hok) <;>
      refine ⟨by simp, ?_⟩ <;> (intro t ht; simp [ht])

/-- Closed form of the staleness sweep fold, for any accumulator. -/
theorem mark_offline_foldl (stale_seconds now : Int)
    (nodes : List NodeRecord) (acc : List NodeRecord × List Node) :
    nodes.foldl (fun acc n =>
      if n.last_seen < now - stale_seconds ∧
          n.status ≠ NodeStatus.OFFLINE then
        let n2 := { n with status := NodeStatus.OFFLINE, updated_at := now }
        (acc.1 ++ [n2], acc.2 ++ [to_node n2])
      else (acc.1 ++ [n], acc.2)) acc =
    (acc.1 ++ nodes.map (fun n =>
        if n.last_seen < now - stale_seconds ∧
            n.status ≠ NodeStatus.OFFLINE then
          { n with status := NodeStatus.OFFLINE, updated_at := now }
        else n),
      acc.2 ++ (nodes.filter (fun n =>
        decide (n.last_seen < now - stale_seconds ∧
          n.status ≠ NodeStatus.OFFLINE))).map (fun n =>
        to_node { n with status := NodeStatus.OFFLINE, updated_at := now })) := by
  induction nodes generalizing acc with
  | nil => simp
  | cons n ns ih =>
    simp only [List.foldl_cons, List.map_cons, List.filter_cons]
    by_cases h : n.last_seen < now - stale_seconds ∧
      n.status ≠ NodeStatus.OFFLINE
    · rw [ih]
      simp [h]
    · rw [ih]
      simp [h]

/-- C5: the staleness sweep demotes exactly the nodes seen before the
cutoff whose status is not already OFFLINE (refreshing their updated_at),
returns exactly the changed nodes, leaves every other node untouched, and
afterwards every node last seen before the cutoff is OFFLINE. -/
theorem C5_mark_offline_if_stale_nodes (nodes : List NodeRecord)
    (stale_seconds now : Int) :
    (mark_offline_if_stale_nodes nodes stale_seconds now =
      (nodes.map (fun n =>
        if n.last_seen < now - stale_seconds ∧
            n.status ≠ NodeStatus.OFFLINE then
          { n with status := NodeStatus.OFFLINE, updated_at := now }
        else n),
       (nodes.filter (fun n =>
        decide (n.last_seen < now - stale_seconds ∧
          n.status ≠ NodeStatus.OFFLINE))).map (fun n =>
        to_node { n with status := NodeStatus.OFFLINE, updated_at := now }))) ∧
    (∀ n2 ∈ (mark_offline_if_stale_nodes nodes stale_seconds now).1,
      n2.last_seen < now - stale_seconds → n2.status = NodeStatus.OFFLINE) ∧
    (∀ n2 ∈ (mark_offline_if_stale_nodes nodes stale_seconds now).2,
      n2.status = NodeStatus.OFFLINE) := by
  have hfold := mark_offline_foldl stale_seconds now nodes ([], [])
  have hmain : mark_offline_if_stale_nodes nodes stale_seconds now =
      (nodes.map (fun n =>
        if n.last_seen < now - stale_seconds ∧
            n.status ≠ NodeStatus.OFFLINE then
          { n with status := NodeStatus.OFFLINE, updated_at := now }
        else n),
       (nodes.filter (fun n =>
        decide (n.last_seen < now - stale_seconds ∧
          n.status ≠ NodeStatus.OFFLINE))).map (fun n =>
        to_node { n with status := NodeStatus.OFFLINE, updated_at := now }))
      := by
    simpa [mark_offline_if_stale_nodes] using hfold
  refine ⟨hmain, ?_, ?_⟩
  · intro n2 hmem hstale
    rw [hmain] at hmem
    rcases List.mem_map.mp hmem with ⟨n, hn, rfl⟩
    by_cases hc : n.last_seen < now - stale_seconds ∧
      n.status ≠ NodeStatus.OFFLINE
    · simp [hc]
    · rw [if_neg hc] at hstale ⊢
      rcases not_and_or.mp hc with hc1 | hc2
      · exact absurd hstale hc1
      · simpa using hc2
  · intro n2 hmem
    rw [hmain] at hmem
    rcases List.mem_map.mp hmem with ⟨n, hn, rfl⟩
    simp [to_node]

/-- Lookup commutes with mapping a function that keeps node ids. -/
theorem find_node_map_preserving (g : NodeRecord → NodeRecord)
    (hg : ∀ n, (g n).node_id = n.node_id) (nodes : List NodeRecord)
    (node_id : String) :
    find_node (nodes.map g) node_id = (find_node nodes node_id).map g := by
  unfold find_node
  rw [List.find?_map]
  have hpe : ((fun n : NodeRecord => n.node_id == node_id) ∘ g) =
      (fun n : NodeRecord => n.node_id == node_id) := by
    funext n
    simp [Function.comp, hg]
  rw [hpe]

/-- C6: update_node_metrics leaves the store with a record for the id
whose metrics are the payload, status ONLINE, last_seen the heartbeat
timestamp and updated_at refreshed (so after any heartbeat the node is
ONLINE); the returned Node mirrors it; a missing node is auto-created with
default capabilities and policy (created now), growing the store by one,
while an existing store keeps its size. -/
theorem C6_update_node_metrics (nodes : List NodeRecord) (node_id : String)
    (metrics : NodeMetrics) (now : Int) :
    (∃ rec,
      find_node (update_node_metrics nodes node_id metrics now).1 node_id =
        some rec ∧
      rec.status = NodeStatus.ONLINE ∧
      rec.metrics = metrics ∧
      rec.last_seen = metrics.heartbeat_ts ∧
      rec.updated_at = now ∧
      (update_node_metrics nodes node_id metrics now).2 =
        some (to_node rec) ∧
      (find_node nodes node_id = none →
        rec.node_id = node_id ∧
        rec.capabilities = default_capabilities ∧
        rec.policy = default_policy ∧
        rec.created_at = now)) ∧
    (find_node nodes node_id = none →
      (update_node_metrics nodes node_id metrics now).1.length =
        nodes.length + 1) ∧
    ((find_node nodes node_id).isSome = true →
      (update_node_metrics nodes node_id metrics now).1.length =
        nodes.length) := by
  have hg : ∀ n : NodeRecord,
      ((fun n : NodeRecord =>
        if n.node_id == node_id then
          { n with
              metrics := metrics, status := NodeStatus.ONLINE,
              last_seen := metrics.heartbeat_ts, updated_at := now }
        else n) n).node_id = n.node_id := by
    intro n
    by_cases h : n.node_id == node_id <;> simp [h]
  have hpair2 : (update_node_metrics nodes node_id metrics now).2 =
      (find_node (update_node_metrics nodes node_id metrics now).1
        node_id).map to_node := rfl
  have hpair1 : (update_node_metrics nodes node_id metrics now).1 =
      (ensure_node nodes node_id now).map (fun n =>
        if n.node_id == node_id then
          { n with
              metrics := metrics, status := NodeStatus.ONLINE,
              last_seen := metrics.heartbeat_ts, updated_at := now }
        else n) := rfl
  rcases hfind : find_node nodes node_id with _ | n0
  · have hens : ensure_node nodes node_id now = nodes ++
        [{ node_id := node_id, display_name := node_id, ip := "0.0.0.0",
           port := 0, status := NodeStatus.UNKNOWN,
           capabilities := default_capabilities,
           metrics := default_metrics now,
           policy := default_policy,
           last_seen := now, created_at := now, updated_at := now }] := by
      simp [ensure_node, hfind]
    have hrec : find_node
        (update_node_metrics nodes node_id metrics now).1 node_id =
        some {
          node_id := node_id, display_name := node_id, ip := "0.0.0.0",
          port := 0, status := NodeStatus.ONLINE,
          capabilities := default_capabilities,
          metrics := metrics,
          policy := default_policy,
          last_seen := metrics.heartbeat_ts, created_at := now,
          updated_at := now } := by
      rw [hpair1, find_node_map_preserving _ hg, hens]
      unfold find_node
      rw [List.find?_append]
      unfold find_node at hfind
      rw [hfind]
      simp
    refine ⟨⟨_, hrec, rfl, rfl, rfl, rfl, ?_, ?_⟩, ?_, ?_⟩
    · rw [hpair2, hrec]
      rfl
    · intro _
      exact ⟨rfl, rfl, rfl, rfl⟩
    · intro _
      rw [hpair1, List.length_map, hens]
      simp
    · intro habs
      simp at habs
  · have hens : ensure_node nodes node_id now = nodes := by
      simp [ensure_node, hfind]
    have hfind2 : nodes.find? (fun n => n.node_id == node_id) = some n0 :=
      hfind
    have hp : (n0.node_id == node_id) = true := by
      have h := List.find?_some hfind2
      simpa using h
    have hrec : find_node
        (update_node_metrics nodes node_id metrics now).1 node_id =
        some { n0 with
          metrics := metrics, status := NodeStatus.ONLINE,
          last_seen := metrics.heartbeat_ts, updated_at := now } := by
      rw [hpair1, find_node_map_preserving _ hg, hens, hfind]
      simp [hp]
      intro h
      exact absurd (by simpa using hp) h
    refine ⟨⟨_, hrec, rfl, rfl, rfl, rfl, ?_, ?_⟩, ?_, ?_⟩
    · rw [hpair2, hrec]
      rfl
    · intro habs
      simp at habs
    · intro habs
      simp at habs
    · intro _
      rw [hpair1, List.length_map, hens]

/-- Length of the last_n suffix. -/
theorem last_n_length (k : Nat) (l : List α) :
    (last_n k l).length = min k l.length := by
  simp only [last_n, List.length_drop]
  omega

/-- Appending through the deque ring sends the last max items of L to the
last max items of L ++ [a]. -/
theorem deque_append_last_n (maxlen : Nat) (L : List α) (a : α) :
    deque_append maxlen (last_n maxlen L) a = last_n maxlen (L ++ [a]) := by
  simp only [deque_append, last_n]
  have hd : L.length - maxlen ≤ L.length := Nat.sub_le _ _
  rw [← List.drop_append_of_le_length hd, List.drop_drop]
  congr 1
  simp only [List.length_append, List.length_drop, List.length_cons,
    List.length_nil]
  omega

/-- Embeds a run of appends against a fresh MetricsHistoryBuffer. -/
def metrics_buffer_run (max_samples : Nat)
    (ops : List (String × NodeMetrics)) : MetricsHistoryBuffer :=
  ops.foldl (fun b p => b.append p.1 p.2)
    (MetricsHistoryBuffer.empty max_samples)

/-- The metrics appended for one node id, in order. -/
def appended_for (node_id : String) (ops : List (String × NodeMetrics)) :
    List NodeMetrics :=
  ops.filterMap (fun p => if p.1 == node_id then some p.2 else none)

/-- Generalized fold invariant: a buffer whose ring for the id is the
last max samples of some history stays in that shape across appends. -/
theorem metrics_buffer_fold_general (max_samples : Nat) (node_id : String) :
    ∀ (ops : List (String × NodeMetrics)) (b : MetricsHistoryBuffer)
      (L : List NodeMetrics),
      b.max_samples = max_samples →
      b.samples node_id = last_n max_samples L →
      (ops.foldl (fun b p => b.append p.1 p.2) b).samples node_id =
        last_n max_samples (L ++ appended_for node_id ops) := by
  intro ops
  induction ops with
  | nil =>
    intro b L hb hs
    simpa [appended_for] using hs
  | cons p ops ih =>
    intro b L hb hs
    simp only [List.foldl_cons]
    by_cases hid : (p.1 == node_id) = true
    · have hid2 : p.1 = node_id := by simpa using hid
      have hstep : (b.append p.1 p.2).samples node_id =
          last_n max_samples (L ++ [p.2]) := by
        simp only [MetricsHistoryBuffer.append]
        rw [if_pos (by simp [beq_iff_eq, hid2])]
        rw [hb, hs, deque_append_last_n]
      have hres := ih (b.append p.1 p.2) (L ++ [p.2]) hb hstep
      rw [hres]
      simp [appended_for, hid2, List.append_assoc]
    · have hid2 : ¬(p.1 = node_id) := by simpa using hid
      have hstep : (b.append p.1 p.2).samples node_id =
          last_n max_samples L := by
        simp only [MetricsHistoryBuffer.append]
        rw [if_neg (by simp only [beq_iff_eq]; exact fun h => hid2 h.symm)]
        exact hs
      have hres := ih (b.append p.1 p.2) L hb hstep
      rw [hres]
      simp [appended_for, hid2]

/-- Sample metrics payload used in concrete buffer runs. -/
def metrics_sample : NodeMetrics :=
  { cpu_percent := 34, ram_used_gb := 8, ram_percent := 51,
    gpu_percent := some 40, vram_used_gb := some 6, running_jobs := 1,
    heartbeat_ts := 0 }

/-- C7 counterexample: after a single append, get with limit 0 returns
that one sample, so the claimed bound of at most min(limit, available)
items (here min(0, 1) = 0) fails at limit 0. -/
theorem C7_counterexample :
    ((MetricsHistoryBuffer.empty 256).append "node-1" metrics_sample).get
      "node-1" 0 = [metrics_sample] ∧
    ¬((((MetricsHistoryBuffer.empty 256).append "node-1"
      metrics_sample).get "node-1" 0).length ≤ min 0 1) := by
  constructor
  · rfl
  · have h1 : ((MetricsHistoryBuffer.empty 256).append "node-1"
      metrics_sample).get "node-1" 0 = [metrics_sample] := rfl
    rw [h1]
    simp

/-- C7 as amended: over any run of appends from a fresh buffer, each
node's ring holds at most max_samples samples and is exactly the suffix
of the metrics appended for that id of length min(count, max_samples),
oldest first; and for limit at least 1, get returns exactly the last
min(limit, available) samples of the ring, oldest first. -/
theorem C7_metrics_history_buffer (max_samples : Nat)
    (ops : List (String × NodeMetrics)) (node_id : String) (limit : Int) :
    ((metrics_buffer_run max_samples ops).samples node_id).length ≤
      max_samples ∧
    (metrics_buffer_run max_samples ops).samples node_id =
      last_n max_samples (appended_for node_id ops) ∧
    (1 ≤ limit →
      ((metrics_buffer_run max_samples ops).get node_id limit).length =
        min limit.toNat
          ((metrics_buffer_run max_samples ops).samples node_id).length ∧
      (metrics_buffer_run max_samples ops).get node_id limit =
        last_n limit.toNat
          ((metrics_buffer_run max_samples ops).samples node_id)) := by
  have hmain : (metrics_buffer_run max_samples ops).samples node_id =
      last_n max_samples (appended_for node_id ops) := by
    have h := metrics_buffer_fold_general max_samples node_id ops
      (MetricsHistoryBuffer.empty max_samples) [] rfl (by
        simp [MetricsHistoryBuffer.empty, last_n])
    simpa [metrics_buffer_run] using h
  refine ⟨?_, hmain, ?_⟩
  · rw [hmain, last_n_length]
    omega
  · intro hlim
    have hget : (metrics_buffer_run max_samples ops).get node_id limit =
        last_n limit.toNat
          ((metrics_buffer_run max_samples ops).samples node_id) := by
      unfold MetricsHistoryBuffer.get py_slice_last
      by_cases hnil : (metrics_buffer_run max_samples ops).samples node_id = []
      · simp [hnil, last_n]
      · rw [if_neg hnil, if_pos (by omega)]
        rfl
    refine ⟨?_, hget⟩
    rw [hget, last_n_length]

/-- Publishing into the last queue_size events keeps the suffix shape,
for positive capacities. -/
theorem queue_publish_last_n (queue_size : Nat) (hcap : 1 ≤ queue_size)
    (L : List NodeUpdateEvent) (e : NodeUpdateEvent) :
    queue_publish queue_size (last_n queue_size L) e =
      last_n queue_size (L ++ [e]) := by
  simp only [queue_publish, last_n]
  by_cases hfull : L.length < queue_size
  · rw [if_neg]
    · have hz : L.length - queue_size = 0 := by omega
      have hz2 : (L ++ [e]).length - queue_size = 0 := by
        simp only [List.length_append, List.length_cons, List.length_nil]
        omega
      rw [hz, hz2]
      simp
    · rw [List.length_drop]
      omega
  · rw [if_pos]
    · have hd : L.length - queue_size ≤ L.length := Nat.sub_le _ _
      rw [List.drop_drop, ← List.drop_append_of_le_length (by omega :
        L.length - queue_size + 1 ≤ L.length)]
      congr 2
      simp only [List.length_append, List.length_cons, List.length_nil]
      omega
    · constructor
      · omega
      · rw [List.length_drop]
        omega

/-- A fold of publishes from the empty queue yields the suffix of the
last queue_size events. -/
theorem publish_seq_eq_last_n (queue_size : Nat) (hcap : 1 ≤ queue_size)
    (events : List NodeUpdateEvent) :
    publish_seq queue_size events = last_n queue_size events := by
  induction events using List.reverseRecOn with
  | nil => simp [publish_seq, last_n]
  | append_singleton l a ih =>
    show (l ++ [a]).foldl (queue_publish queue_size) [] = _
    rw [List.foldl_append]
    have hl : l.foldl (queue_publish queue_size) [] =
        last_n queue_size l := ih
    simp only [List.foldl_cons, List.foldl_nil]
    rw [hl, queue_publish_last_n queue_size hcap]

/-- C8: on publish every full subscriber queue first sheds its oldest
pending event and then enqueues the new one (publish mapping this step
over the snapshot of subscribers), and a subscriber present from the
start through N publishes with no concurrent consumption holds exactly
the suffix of the last min(N, queue_size) published events, in publish
order, for positive queue_size. -/
theorem C8_event_bus_suffix (queue_size : Nat)
    (events : List NodeUpdateEvent) :
    (∀ (q : List NodeUpdateEvent) (e : NodeUpdateEvent),
      1 ≤ queue_size → q.length = queue_size →
      queue_publish queue_size q e = q.drop 1 ++ [e]) ∧
    (∀ (queues : List (List NodeUpdateEvent)) (e : NodeUpdateEvent),
      bus_publish queue_size queues e =
        queues.map (fun q => queue_publish queue_size q e)) ∧
    (1 ≤ queue_size →
      publish_seq queue_size events =
        events.drop (events.length - queue_size) ∧
      (publish_seq queue_size events).length =
        min events.length queue_size) := by
  refine ⟨?_, fun queues e => rfl, ?_⟩
  · intro q e hcap hlen
    simp only [queue_publish]
    rw [if_pos ⟨by omega, by omega⟩]
  · intro hcap
    have h := publish_seq_eq_last_n queue_size hcap events
    refine ⟨h, ?_⟩
    rw [h, last_n_length]
    omega

/-- C10: get with limit 0 returns the whole ring for the id (the slice
items[-0:] is items), and a negative limit -n returns everything but the
oldest n samples; the at-most-limit bound only makes sense from limit 1
upward (the bound itself is the subject of the C7 theorems). -/
theorem C10_get_zero_and_negative_limit (buf : MetricsHistoryBuffer)
    (node_id : String) :
    (buf.get node_id 0 = buf.samples node_id) ∧
    (∀ n : Nat, buf.get node_id (-(n : Int)) =
      (buf.samples node_id).drop n) := by
  constructor
  · unfold MetricsHistoryBuffer.get py_slice_last
    by_cases h : buf.samples node_id = [] <;> simp [h]
  · intro n
    unfold MetricsHistoryBuffer.get py_slice_last
    by_cases h : buf.samples node_id = [] <;> simp [h]

/-- Sample policy payload for concrete policy updates. -/
def policy_sample : NodePolicy :=
  { enabled := true, cpu_cap_percent := 85, gpu_cap_percent := some 90,
    ram_cap_percent := 80,
    task_allowlist := [TaskType.INFERENCE, TaskType.EMBEDDINGS],
    role_preference := RolePreference.PREFER_INFERENCE }

/-- C9 counterexample: a policy PUT against an empty store (the node id
unknown) does not fail with NotFound; it creates a node record for the id
and returns the updated node (an HTTP 200), because update_node_policy
goes through the auto-creating _ensure_node. -/
theorem C9_counterexample :
    (put_node_policy [] "node-1" policy_sample 0).1.length = 1 ∧
    (find_node (put_node_policy [] "node-1" policy_sample 0).1
      "node-1").isSome = true ∧
    (put_node_policy [] "node-1" policy_sample 0).2.isSome = true := by
  refine ⟨rfl, rfl, rfl⟩

/-- C9 as amended: a policy PUT for an unknown node id succeeds rather
than failing with NotFound: the node is auto-created with default
capabilities and status UNKNOWN, the submitted policy applied, the store
grows by one record, and the updated node is returned; a policy update
always returns a node. -/
theorem C9_put_node_policy_autocreates (nodes : List NodeRecord)
    (node_id : String) (policy : NodePolicy) (now : Int) :
    (find_node nodes node_id = none →
      ∃ rec,
        find_node (put_node_policy nodes node_id policy now).1 node_id =
          some rec ∧
        rec.policy = policy ∧
        rec.status = NodeStatus.UNKNOWN ∧
        rec.capabilities = default_capabilities ∧
        rec.node_id = node_id ∧
        rec.updated_at = now ∧
        (put_node_policy nodes node_id policy now).2 =
          some (to_node rec) ∧
        (put_node_policy nodes node_id policy now).1.length =
          nodes.length + 1) ∧
    (put_node_policy nodes node_id policy now).2.isSome = true := by
  have hg : ∀ n : NodeRecord,
      ((fun n : NodeRecord =>
        if n.node_id == node_id then
          { n with policy := policy, updated_at := now }
        else n) n).node_id = n.node_id := by
    intro n
    by_cases h : n.node_id == node_id <;> simp [h]
  have hpair2 : (put_node_policy nodes node_id policy now).2 =
      (find_node (put_node_policy nodes node_id policy now).1
        node_id).map to_node := rfl
  have hpair1 : (put_node_policy nodes node_id policy now).1 =
      (ensure_node nodes node_id now).map (fun n =>
        if n.node_id == node_id then
          { n with policy := policy, updated_at := now }
        else n) := rfl
  constructor
  · intro hfind
    have hens : ensure_node nodes node_id now = nodes ++
        [{
           node_id := node_id, display_name := node_id, ip := "0.0.0.0",
           port := 0, status := NodeStatus.UNKNOWN,
           capabilities := default_capabilities,
           metrics := default_metrics now,
           policy := default_policy,
           last_seen := now, created_at := now, updated_at := now }] := by
      simp [ensure_node, hfind]
    have hrec : find_node
        (put_node_policy nodes node_id policy now).1 node_id =
        some {
          node_id := node_id, display_name := node_id, ip := "0.0.0.0",
          port := 0, status := NodeStatus.UNKNOWN,
          capabilities := default_capabilities,
          metrics := default_metrics now,
          policy := policy,
          last_seen := now, created_at := now, updated_at := now } := by
      rw [hpair1, find_node_map_preserving _ hg, hens]
      unfold find_node
      rw [List.find?_append]
      unfold find_node at hfind
      rw [hfind]
      simp
    refine ⟨_, hrec, rfl, rfl, rfl, rfl, rfl, ?_, ?_⟩
    · rw [hpair2, hrec]
      rfl
    · rw [hpair1, List.length_map, hens]
      simp
  · rcases hfind : find_node nodes node_id with _ | n0
    · have hens : ensure_node nodes node_id now = nodes ++
          [{
             node_id := node_id, display_name := node_id, ip := "0.0.0.0",
             port := 0, status := NodeStatus.UNKNOWN,
             capabilities := default_capabilities,
             metrics := default_metrics now,
             policy := default_policy,
             last_seen := now, created_at := now, updated_at := now }] := by
        simp [ensure_node, hfind]
      rw [hpair2, hpair1, find_node_map_preserving _ hg, hens]
      unfold find_node
      rw [List.find?_append]
      unfold find_node at hfind
      rw [hfind]
      simp
    · have hens : ensure_node nodes node_id now = nodes := by
        simp [ensure_node, hfind]
      rw [hpair2, hpair1, find_node_map_preserving _ hg, hens, hfind]
      simp
